import Mathlib

/-!
Shallow embedding of the Spotify play-history scraper ("get_data.py"): the
OAuth token lifecycle (freshness check, refresh, interactive PKCE login),
cursor pagination over the recently-played endpoint, play-event
normalization, and the top-level driver loop.  Network responses, the
credential store and the current wall-clock time are passed explicitly;
Python exceptions (KeyError, IndexError, raise) become Except/Option.
-/

/-! ## Token freshness (SpotifyScraper._verify_valid_token) -/

/-- Python's built-in round() at zero digits: round half to even. -/
def pyRound (x : ℚ) : ℤ :=
  if x - ⌊x⌋ < 1 / 2 then ⌊x⌋
  else if 1 / 2 < x - ⌊x⌋ then ⌊x⌋ + 1
  else if ⌊x⌋ % 2 = 0 then ⌊x⌋ else ⌊x⌋ + 1

/-- SpotifyScraper._verify_valid_token, as a function of the elapsed time
"now_date - last_date_token" expressed in seconds (the value of
timedelta.total_seconds()).  The code rounds the elapsed minutes to the
nearest integer and compares with 60. -/
def verify_valid_token (elapsedSeconds : ℚ) : Bool :=
  let time_active_token_in_minutes := pyRound (elapsedSeconds / 60)
  if time_active_token_in_minutes > 60 then false else true

/-! ## Credential store and token exchange
(SpotifyScraper._update_token, renew_access_token, _new_login) -/

/-- The SPOTIFY section of the ".env" credential store.  The refresh token is
optional because _new_login stores response.json().get("refresh_token", None). -/
structure Credentials where
  client_id : String
  client_secret : String
  access_token : String
  refresh_token : Option String
  last_date_token : String

/-- A token-endpoint HTTP response: status code plus the two JSON fields the
scraper reads; a "none" field models a body lacking that key, so that reading
it with [] raises KeyError. -/
structure TokenResponse where
  status : Nat
  access_token : Option String
  refresh_token : Option String

/-- SpotifyScraper._update_token: overwrite the three mutable fields of the
SPOTIFY section with the new tokens and the formatted current time, keeping
client_id and client_secret. -/
def update_token (cfg : Credentials) (a : String) (r : Option String)
    (now : String) : Credentials :=
  ⟨cfg.client_id, cfg.client_secret, a, r, now⟩

/-- SpotifyScraper.renew_access_token, as a function of the token-endpoint
response.  On status 200 the code reads response.json()["access_token"] and
response.json()["refresh_token"] by mandatory key lookup (KeyError if either
is absent, modelled as Except.error), persists both via _update_token and
returns the access token; on any other status it returns None and never
touches the store. -/
def renew_access_token (resp : TokenResponse) (cfg : Credentials)
    (now : String) : Except String (Option String × Credentials) :=
  if resp.status = 200 then
    match resp.access_token with
    | none => .error "KeyError: access_token"
    | some a =>
      match resp.refresh_token with
      | none => .error "KeyError: refresh_token"
      | some r => .ok (some a, update_token cfg a (some r) now)
  else
    .ok (none, cfg)

/-- The authorization-code-to-token exchange tail of SpotifyScraper._new_login
(from the POST to the token endpoint onward), as a function of the response.
A non-200 status raises Exception("Failed to get access token.") and the
store is untouched; otherwise the code reads ["access_token"] by mandatory
lookup but .get("refresh_token", None) tolerantly, persists, and returns the
access token. -/
def new_login_exchange (resp : TokenResponse) (cfg : Credentials)
    (now : String) : Except String String × Credentials :=
  if resp.status ≠ 200 then
    (.error "Failed to get access token.", cfg)
  else
    match resp.access_token with
    | none => (.error "KeyError: access_token", cfg)
    | some a => (.ok a, update_token cfg a resp.refresh_token now)

/-! ## PKCE code verifier and challenge (SpotifyScraper._new_login)

The verifier is base64url(sha256(32 random bytes)) with the padding "="
stripped, and the challenge sent in the authorization URL is
base64url(sha256(utf8(verifier))) with the padding stripped.  SHA-256 is
embedded in full over byte lists (Nat values below 256), with 32-bit words
as Nat reduced mod 2 ^ 32. -/

def wrap32 (x : Nat) : Nat := x % 4294967296

def rotr32 (n x : Nat) : Nat := wrap32 (x / 2 ^ n + x % 2 ^ n * 2 ^ (32 - n))

def sha256K : List Nat :=
  [1116352408, 1899447441, 3049323471, 3921009573, 961987163,
   1508970993, 2453635748, 2870763221, 3624381080, 310598401,
   607225278, 1426881987, 1925078388, 2162078206, 2614888103,
   3248222580, 3835390401, 4022224774, 264347078, 604807628,
   770255983, 1249150122, 1555081692, 1996064986, 2554220882,
   2821834349, 2952996808, 3210313671, 3336571891, 3584528711,
   113926993, 338241895, 666307205, 773529912, 1294757372,
   1396182291, 1695183700, 1986661051, 2177026350, 2456956037,
   2730485921, 2820302411, 3259730800, 3345764771, 3516065817,
   3600352804, 4094571909, 275423344, 430227734, 506948616,
   659060556, 883997877, 958139571, 1322822218, 1537002063,
   1747873779, 1955562222, 2024104815, 2227730452, 2361852424,
   2428436474, 2756734187, 3204031479, 3329325298]

structure Sha256State where
  a : Nat
  b : Nat
  c : Nat
  d : Nat
  e : Nat
  f : Nat
  g : Nat
  hh : Nat

def sha256Init : Sha256State :=
  ⟨1779033703, 3144134277, 1013904242, 2773480762,
   1359893119, 2600822924, 528734635, 1541459225⟩

def bigSigma0 (x : Nat) : Nat := rotr32 2 x ^^^ rotr32 13 x ^^^ rotr32 22 x
def bigSigma1 (x : Nat) : Nat := rotr32 6 x ^^^ rotr32 11 x ^^^ rotr32 25 x
def smallSigma0 (x : Nat) : Nat := rotr32 7 x ^^^ rotr32 18 x ^^^ x / 8
def smallSigma1 (x : Nat) : Nat := rotr32 17 x ^^^ rotr32 19 x ^^^ x / 1024

def sha256Round (s : Sha256State) (k w : Nat) : Sha256State :=
  let ch := (s.e &&& s.f) ^^^ ((4294967295 - s.e) &&& s.g)
  let t1 := wrap32 (s.hh + bigSigma1 s.e + ch + k + w)
  let mj := (s.a &&& s.b) ^^^ (s.a &&& s.c) ^^^ (s.b &&& s.c)
  let t2 := wrap32 (bigSigma0 s.a + mj)
  ⟨wrap32 (t1 + t2), s.a, s.b, s.c, wrap32 (s.d + t1), s.e, s.f, s.g⟩

def bytesToWords : List Nat → List Nat
  | b0 :: b1 :: b2 :: b3 :: rest =>
    (b0 * 16777216 + b1 * 65536 + b2 * 256 + b3) :: bytesToWords rest
  | _ => []

def extendSchedule : List Nat → Nat → List Nat
  | w, 0 => w
  | w, n + 1 =>
    let prev := extendSchedule w n
    let t := prev.length
    prev ++ [wrap32 (smallSigma1 (prev.getD (t - 2) 0) + prev.getD (t - 7) 0 +
      smallSigma0 (prev.getD (t - 15) 0) + prev.getD (t - 16) 0)]

def sha256Compress (s : Sha256State) (block : List Nat) : Sha256State :=
  let w := extendSchedule (bytesToWords block) 48
  let t := (sha256K.zip w).foldl (fun acc kw => sha256Round acc kw.1 kw.2) s
  ⟨wrap32 (s.a + t.a), wrap32 (s.b + t.b), wrap32 (s.c + t.c),
   wrap32 (s.d + t.d), wrap32 (s.e + t.e), wrap32 (s.f + t.f),
   wrap32 (s.g + t.g), wrap32 (s.hh + t.hh)⟩

def lengthBytes64 (n : Nat) : List Nat :=
  [n / 2 ^ 56 % 256, n / 2 ^ 48 % 256, n / 2 ^ 40 % 256, n / 2 ^ 32 % 256,
   n / 2 ^ 24 % 256, n / 2 ^ 16 % 256, n / 2 ^ 8 % 256, n % 256]

def padMessage (msg : List Nat) : List Nat :=
  msg ++ 128 :: (List.replicate ((119 - msg.length % 64) % 64) 0 ++
    lengthBytes64 (msg.length * 8))

def chunkBlocks : List Nat → List (List Nat)
  | [] => []
  | x :: xs => ((x :: xs).take 64) :: chunkBlocks ((x :: xs).drop 64)
termination_by l => l.length
decreasing_by
  simp [List.length_drop]
  omega

def wordBytes (w : Nat) : List Nat :=
  [w / 16777216 % 256, w / 65536 % 256, w / 256 % 256, w % 256]

def sha256 (msg : List Nat) : List Nat :=
  let s := (chunkBlocks (padMessage msg)).foldl sha256Compress sha256Init
  wordBytes s.a ++ wordBytes s.b ++ wordBytes s.c ++ wordBytes s.d ++
    wordBytes s.e ++ wordBytes s.f ++ wordBytes s.g ++ wordBytes s.hh

def b64Chars : List Char :=
  "ABCDEFGHIJKLMNOPQRSTUVWXYZabcdefghijklmnopqrstuvwxyz0123456789-_".toList

def sixToChar (i : Nat) : Char := b64Chars.getD i 'A'

def b64UrlEncode : List Nat → List Char
  | b0 :: b1 :: b2 :: rest =>
    let n := b0 * 65536 + b1 * 256 + b2
    sixToChar (n / 262144 % 64) :: sixToChar (n / 4096 % 64) ::
      sixToChar (n / 64 % 64) :: sixToChar (n % 64) :: b64UrlEncode rest
  | [b0, b1] =>
    let n := b0 * 65536 + b1 * 256
    [sixToChar (n / 262144 % 64), sixToChar (n / 4096 % 64),
     sixToChar (n / 64 % 64), '=']
  | [b0] =>
    let n := b0 * 65536
    [sixToChar (n / 262144 % 64), sixToChar (n / 4096 % 64), '=', '=']
  | [] => []

def rstripEq (s : List Char) : List Char :=
  (s.reverse.dropWhile (fun c => c = '=')).reverse

def strBytes (s : List Char) : List Nat := s.map Char.toNat

def code_verifier (rnd : List Nat) : List Char :=
  rstripEq (b64UrlEncode (sha256 rnd))

def code_challenge (v : List Char) : List Char :=
  rstripEq (b64UrlEncode (sha256 (strBytes v)))

/-- The query parameters _new_login embeds in the authorization URL. -/
structure AuthParams where
  response_type : String
  client_id : String
  redirect_uri : String
  scope : String
  code_challenge : List Char
  code_challenge_method : String

/-- The auth_params dict _new_login sends, as a function of the configured
client id and of the 32 random bytes drawn by secrets.token_bytes(32). -/
def new_login_auth_params (clientId : String) (rnd : List Nat) : AuthParams :=
  ⟨"code", clientId, "http://localhost:3000", "user-read-recently-played",
   code_challenge (code_verifier rnd), "S256"⟩

/-! ## History pagination (SpotifyScraper.get_tracks_history) -/

/-- The recently-played endpoint response as the scraper reads it: the
"items" list and the optional "cursors"/"before" pagination value (absent
cursors make the ["cursors"]["before"] lookup raise, modelled as none; the
int() parse of the cursor is modelled by the field already being a Nat). -/
structure HistoryResponse (α : Type) where
  items : List α
  cursorsBefore : Option Nat

/-- SpotifyScraper.get_tracks_history, from the GET response onward: returns
(return value, payload written to the local "resultado.json" file, payload
dispatched to save_to_s3).  Zero items return 0 with no writes; otherwise the
items list goes to both sinks and the "before" cursor is returned. -/
def get_tracks_history {α : Type} (resp : HistoryResponse α) :
    Except String (Nat × Option (List α) × Option (List α)) :=
  if resp.items.length = 0 then
    .ok (0, none, none)
  else
    match resp.cursorsBefore with
    | none => .error "KeyError: before"
    | some b => .ok (b, some resp.items, some resp.items)

/-! ## Play-event normalization (SpotifyScraper.get_data) -/

structure AlbumImage where
  url : String

structure AlbumArtist where
  id : String
  name : String

structure AlbumData where
  id : String
  name : String
  release_date : String
  total_tracks : Nat
  album_type : String
  images : List AlbumImage
  artists : List AlbumArtist

structure TrackData where
  album : AlbumData
  duration_ms : Nat
  explicit : Bool
  id : String
  is_local : Bool
  name : String
  popularity : Nat

/-- The playback context object: its "type" and external_urls.spotify URL. -/
structure PlayContext where
  type : String
  external_urls_spotify : String

/-- One raw item of the history page; context is None when the playback had
no playlist/album context. -/
structure PlayItem where
  track : TrackData
  played_at : String
  context : Option PlayContext

/-- The flat output record built by SpotifyScraper.get_data. -/
structure OutputData where
  id_album : String
  name_album : String
  release_date : String
  total_tracks : Nat
  album_type : String
  image_album : String
  artist_album_id : String
  artist_album_name : String
  duration_ms : Nat
  explicit : Bool
  track_id : String
  is_local : Bool
  track_name : String
  popularity : Nat
  played_at : String
  type : String
  playlist_url : String

/-- SpotifyScraper.get_data: flatten one raw play item.  The subscripts
album["images"][1] and album["artists"][0] are mandatory (IndexError on a
shorter list, modelled as none); a None context yields the literal sentinel
string "null" for both context-derived fields. -/
def get_data (d : PlayItem) : Option OutputData :=
  match d.track.album.images[1]?, d.track.album.artists[0]? with
  | some img, some art =>
    some ⟨d.track.album.id, d.track.album.name, d.track.album.release_date,
      d.track.album.total_tracks, d.track.album.album_type,
      img.url, art.id, art.name,
      d.track.duration_ms, d.track.explicit, d.track.id, d.track.is_local,
      d.track.name, d.track.popularity, d.played_at,
      (match d.context with
       | some c => c.type
       | none => "null"),
      (match d.context with
       | some c => c.external_urls_spotify
       | none => "null")⟩
  | _, _ => none

/-! ## Top-level driver loop (main) -/

/-- The cursor trace of main's while loop: starting from the epoch-millisecond
timestamp "date_now", each iteration with a truthy (nonzero) cursor calls
get_tracks_history with it and continues from the returned value; a falsy
cursor (0, the zero-items terminal signal) ends the loop.  The external
get_tracks_history is abstracted as the function fetchNext from the request
cursor to the returned value, and fuel bounds the unrolling (the Python loop
has no such bound).  The result lists, in order, every cursor the loop passes
to get_tracks_history. -/
def runLoop (fetchNext : Nat → Nat) : Nat → Nat → List Nat
  | 0, _ => []
  | fuel + 1, cursor =>
    if cursor = 0 then [] else cursor :: runLoop fetchNext fuel (fetchNext cursor)

/-! ## Concrete sample inputs, used by the witness theorems -/

def sampleCreds : Credentials :=
  ⟨"client-id", "client-secret", "old-access", some "old-refresh",
   "01/01/2024 00:00:00"⟩

def sampleAlbum : AlbumData :=
  ⟨"alb1", "Album", "2020-01-01", 10, "album",
   [⟨"url0"⟩, ⟨"url1"⟩, ⟨"url2"⟩], [⟨"art1", "Artist"⟩]⟩

def sampleTrack : TrackData :=
  ⟨sampleAlbum, 200000, false, "trk1", false, "Track", 50⟩

def sampleItemNoContext : PlayItem :=
  ⟨sampleTrack, "2024-01-01T00:00:00Z", none⟩

def sampleOutNoContext : OutputData :=
  ⟨"alb1", "Album", "2020-01-01", 10, "album", "url1", "art1", "Artist",
   200000, false, "trk1", false, "Track", 50, "2024-01-01T00:00:00Z",
   "null", "null"⟩

def samplePlaylistContext : PlayContext :=
  ⟨"playlist", "https://open.spotify.com/playlist/xyz"⟩

def sampleItemWithContext : PlayItem :=
  ⟨sampleTrack, "2024-01-02T00:00:00Z", some samplePlaylistContext⟩

def sampleOutWithContext : OutputData :=
  ⟨"alb1", "Album", "2020-01-01", 10, "album", "url1", "art1", "Artist",
   200000, false, "trk1", false, "Track", 50, "2024-01-02T00:00:00Z",
   "playlist", "https://open.spotify.com/playlist/xyz"⟩

/-! ## Theorems -/

/-- Python round() compares against 60 after rounding half to even, so the
Boolean is monotone with threshold 60.5 on the unrounded value. -/
theorem pyRound_le_sixty (x : ℚ) : pyRound x ≤ 60 ↔ x ≤ 121 / 2 := by
  have h1 : (⌊x⌋ : ℚ) ≤ x := Int.floor_le x
  have h2 : x < ⌊x⌋ + 1 := Int.lt_floor_add_one x
  unfold pyRound
  split_ifs with ha hb hc
  · constructor
    · intro h
      have hq : (⌊x⌋ : ℚ) ≤ 60 := by exact_mod_cast h
      linarith
    · intro h
      have h3 : (⌊x⌋ : ℚ) < 61 := by linarith
      have h4 : ⌊x⌋ < 61 := by exact_mod_cast h3
      omega
  · constructor
    · intro h
      have h3 : (⌊x⌋ : ℚ) ≤ 59 := by exact_mod_cast (by omega : ⌊x⌋ ≤ 59)
      linarith
    · intro h
      have h3 : (⌊x⌋ : ℚ) < 60 := by linarith
      have h4 : ⌊x⌋ < 60 := by exact_mod_cast h3
      omega
  · have hx : x = (⌊x⌋ : ℚ) + 1 / 2 := by linarith
    constructor
    · intro h
      have hq : (⌊x⌋ : ℚ) ≤ 60 := by exact_mod_cast h
      linarith
    · intro h
      have hq : (⌊x⌋ : ℚ) ≤ 60 := by linarith
      exact_mod_cast hq
  · have hx : x = (⌊x⌋ : ℚ) + 1 / 2 := by linarith
    constructor
    · intro h
      have h3 : (⌊x⌋ : ℚ) ≤ 59 := by exact_mod_cast (by omega : ⌊x⌋ ≤ 59)
      linarith
    · intro h
      have hq : (⌊x⌋ : ℚ) ≤ 60 := by linarith
      have h60 : ⌊x⌋ ≤ 60 := by exact_mod_cast hq
      omega

/-- C1 (counterexample): at an elapsed time of 3629 seconds (60 minutes and
29 seconds, strictly greater than 60 minutes) the freshness check still
returns true, because the code rounds the elapsed minutes before comparing;
so "true iff elapsed ≤ 60 minutes" is false as stated. -/
theorem token_freshness_claim_cex :
    verify_valid_token 3629 = true ∧ ¬ ((3629 : ℚ) ≤ 60 * 60) := by
  constructor
  · have hfl : ⌊(3629 / 60 : ℚ)⌋ = 60 := by
      rw [Int.floor_eq_iff]
      norm_num
    unfold verify_valid_token pyRound
    rw [hfl]
    norm_num
  · norm_num

/-- C1 (amended): the freshness check returns true iff the elapsed time is at
most 60.5 minutes (3630 seconds): the code rounds the elapsed minutes half to
even and compares the result with 60, so the boundary sits at 60.5 minutes
(itself fresh, since round-half-even sends 60.5 to 60), not at 60 minutes. -/
theorem token_freshness_iff (e : ℚ) :
    verify_valid_token e = true ↔ e ≤ 3630 := by
  have key : pyRound (e / 60) ≤ 60 ↔ e ≤ 3630 := by
    rw [pyRound_le_sixty, div_le_iff₀ (by norm_num : (0 : ℚ) < 60)]
    norm_num
  unfold verify_valid_token
  dsimp only
  split_ifs with h
  · simp only [false_iff]
    rw [← key]
    omega
  · simp only [true_iff]
    rw [← key]
    omega

/-- C2: a 200 refresh response carrying access_token "a" and refresh_token
"r" persists both together with the refresh timestamp and returns the access
token; any non-200 response returns None and leaves the store untouched. -/
theorem renew_access_token_spec :
    (∀ (a r now : String) (cfg : Credentials),
      renew_access_token ⟨200, some a, some r⟩ cfg now =
        .ok (some a, ⟨cfg.client_id, cfg.client_secret, a, some r, now⟩)) ∧
    (∀ (resp : TokenResponse) (cfg : Credentials) (now : String),
      resp.status ≠ 200 → renew_access_token resp cfg now = .ok (none, cfg)) := by
  constructor
  · intro a r now cfg
    simp [renew_access_token, update_token]
  · intro resp cfg now h
    simp [renew_access_token, h]

/-- C2 witness: the refresh behaviours at concrete responses. -/
theorem renew_access_token_spec_witness :
    renew_access_token ⟨200, some "A", some "R"⟩ sampleCreds "02/01/2024 00:00:00" =
      .ok (some "A", ⟨"client-id", "client-secret", "A", some "R", "02/01/2024 00:00:00"⟩) ∧
    renew_access_token ⟨401, some "A", some "R"⟩ sampleCreds "02/01/2024 00:00:00" =
      .ok (none, sampleCreds) :=
  ⟨renew_access_token_spec.1 "A" "R" "02/01/2024 00:00:00" sampleCreds,
   renew_access_token_spec.2 ⟨401, some "A", some "R"⟩ sampleCreds
     "02/01/2024 00:00:00" (by decide)⟩

/-- A SHA-256 digest always has 32 bytes. -/
theorem sha256_length (msg : List Nat) : (sha256 msg).length = 32 := by
  simp [sha256, wordBytes]

/-- Base64 emits four characters per three-byte group, padding included. -/
theorem b64UrlEncode_length (bs : List Nat) :
    (b64UrlEncode bs).length = (bs.length + 2) / 3 * 4 := by
  induction bs using b64UrlEncode.induct <;> simp [b64UrlEncode, *] <;> omega

/-- Every emitted character lies in the URL-safe base64 alphabet. -/
theorem sixToChar_mem (i : Nat) : sixToChar i ∈ b64Chars := by
  unfold sixToChar
  by_cases h : i < b64Chars.length
  · rw [List.getD_eq_getElem _ _ h]
    exact List.getElem_mem h
  · rw [List.getD_eq_default _ _ (by omega)]
    decide

/-- An input of length 2 mod 3 encodes to alphabet characters followed by
exactly one padding sign. -/
theorem b64UrlEncode_two_mod_three (bs : List Nat) (h : bs.length % 3 = 2) :
    ∃ l, b64UrlEncode bs = l ++ ['='] ∧ ∀ c ∈ l, c ∈ b64Chars := by
  induction bs using b64UrlEncode.induct with
  | case1 b0 b1 b2 rest ih =>
    simp only [List.length_cons] at h
    obtain ⟨l, hl, hmem⟩ := ih (by omega)
    refine ⟨sixToChar ((b0 * 65536 + b1 * 256 + b2) / 262144 % 64) ::
        sixToChar ((b0 * 65536 + b1 * 256 + b2) / 4096 % 64) ::
        sixToChar ((b0 * 65536 + b1 * 256 + b2) / 64 % 64) ::
        sixToChar ((b0 * 65536 + b1 * 256 + b2) % 64) :: l, ?_, ?_⟩
    · simp [b64UrlEncode, hl]
    · intro c hc
      simp only [List.mem_cons] at hc
      rcases hc with rfl | rfl | rfl | rfl | hc
      · exact sixToChar_mem _
      · exact sixToChar_mem _
      · exact sixToChar_mem _
      · exact sixToChar_mem _
      · exact hmem c hc
  | case2 b0 b1 =>
    refine ⟨[sixToChar ((b0 * 65536 + b1 * 256) / 262144 % 64),
            sixToChar ((b0 * 65536 + b1 * 256) / 4096 % 64),
            sixToChar ((b0 * 65536 + b1 * 256) / 64 % 64)], ?_, ?_⟩
    · simp [b64UrlEncode]
    · intro c hc
      simp only [List.mem_cons] at hc
      rcases hc with rfl | rfl | rfl | hc
      · exact sixToChar_mem _
      · exact sixToChar_mem _
      · exact sixToChar_mem _
      · simp at hc
  | case3 b0 => simp at h
  | case4 => simp at h

/-- Stripping trailing padding from alphabet characters plus one padding
sign returns exactly the alphabet characters. -/
theorem rstripEq_alpha_append (l : List Char) (hmem : ∀ c ∈ l, c ∈ b64Chars) :
    rstripEq (l ++ ['=']) = l := by
  unfold rstripEq
  rw [List.reverse_append]
  simp only [List.reverse_singleton, List.singleton_append]
  rw [List.dropWhile_cons, if_pos (by decide)]
  cases hlr : l.reverse with
  | nil => simp [List.reverse_eq_nil_iff.mp hlr]
  | cons x xs =>
    have hx : x ∈ l := by
      have hxr : x ∈ l.reverse := by
        rw [hlr]
        exact List.mem_cons_self _ _
      exact List.mem_reverse.mp hxr
    have hxne : x ≠ '=' := by
      intro hcon
      have hmx := hmem x hx
      rw [hcon] at hmx
      revert hmx
      decide
    rw [List.dropWhile_cons, if_neg (by simp [hxne]), ← hlr,
      List.reverse_reverse]

/-- C3: for any 32 random bytes, the code_challenge sent to the
authorization endpoint equals base64url(SHA-256(utf8(code_verifier))) with
padding stripped, and the code_verifier is a 43-character URL-safe string
(43 is within the required 43 to 128 range; every character lies in the
URL-safe base64 alphabet). -/
theorem pkce_spec (clientId : String) (rnd : List Nat) (hlen : rnd.length = 32) :
    (new_login_auth_params clientId rnd).code_challenge =
      rstripEq (b64UrlEncode (sha256 (strBytes (code_verifier rnd)))) ∧
    43 ≤ (code_verifier rnd).length ∧ (code_verifier rnd).length ≤ 128 ∧
    ∀ c ∈ code_verifier rnd, c ∈ b64Chars := by
  have hdig : (sha256 rnd).length = 32 := sha256_length rnd
  obtain ⟨l, hl, hmem⟩ := b64UrlEncode_two_mod_three (sha256 rnd) (by rw [hdig])
  have hv : code_verifier rnd = l := by
    unfold code_verifier
    rw [hl]
    exact rstripEq_alpha_append l hmem
  have hlenl : l.length = 43 := by
    have he := b64UrlEncode_length (sha256 rnd)
    rw [hdig, hl] at he
    simp at he
    omega
  refine ⟨rfl, ?_, ?_, ?_⟩
  · rw [hv, hlenl]
  · rw [hv, hlenl]
    norm_num
  · intro c hc
    rw [hv] at hc
    exact hmem c hc

/-- C3 witness: the PKCE pair derived from 32 zero bytes. -/
theorem pkce_spec_witness :
    (new_login_auth_params "client-id" (List.replicate 32 0)).code_challenge =
      rstripEq (b64UrlEncode (sha256 (strBytes
        (code_verifier (List.replicate 32 0))))) ∧
    43 ≤ (code_verifier (List.replicate 32 0)).length ∧
    (code_verifier (List.replicate 32 0)).length ≤ 128 ∧
    ∀ c ∈ code_verifier (List.replicate 32 0), c ∈ b64Chars :=
  pkce_spec "client-id" (List.replicate 32 0) (by simp)

/-- C4: a history page with zero items returns the terminal signal 0 and
writes to neither the local file nor the object-store sink. -/
theorem empty_page_terminal {α : Type} (resp : HistoryResponse α)
    (h : resp.items = []) :
    get_tracks_history resp = .ok (0, none, none) := by
  simp [get_tracks_history, h]

/-- C4 witness: the empty page at cursor 1700000000000. -/
theorem empty_page_terminal_witness :
    get_tracks_history (⟨[], some 1700000000000⟩ : HistoryResponse Nat) =
      .ok (0, none, none) :=
  empty_page_terminal _ rfl

/-- C5: a history page with a non-empty items list and pagination value
cursors.before returns that value as the next cursor and hands exactly the
items list to both sinks. -/
theorem nonempty_page_spec {α : Type} (resp : HistoryResponse α) (b : Nat)
    (hne : resp.items ≠ []) (hb : resp.cursorsBefore = some b) :
    get_tracks_history resp = .ok (b, some resp.items, some resp.items) := by
  unfold get_tracks_history
  rw [if_neg (by simp [List.length_eq_zero, hne]), hb]

/-- C5 witness: a two-item page with before-cursor 1699999000000. -/
theorem nonempty_page_spec_witness :
    get_tracks_history (⟨[10, 20], some 1699999000000⟩ : HistoryResponse Nat) =
      .ok (1699999000000, some [10, 20], some [10, 20]) :=
  nonempty_page_spec ⟨[10, 20], some 1699999000000⟩ 1699999000000
    (by decide) rfl

/-- C6: when normalization succeeds, a null playback context yields the
literal sentinel string "null" in both the type and the playlist_url fields,
and a present context yields its type and its external Spotify URL. -/
theorem normalize_context_sentinel (d : PlayItem) (o : OutputData)
    (ho : get_data d = some o) :
    (d.context = none → o.type = "null" ∧ o.playlist_url = "null") ∧
    (∀ c, d.context = some c →
      o.type = c.type ∧ o.playlist_url = c.external_urls_spotify) := by
  unfold get_data at ho
  cases h1 : d.track.album.images[1]? with
  | none => rw [h1] at ho; cases h2 : d.track.album.artists[0]? <;>
      rw [h2] at ho <;> simp at ho
  | some img =>
    cases h2 : d.track.album.artists[0]? with
    | none => rw [h1, h2] at ho; simp at ho
    | some art =>
      rw [h1, h2] at ho
      simp only [Option.some.injEq] at ho
      subst ho
      refine ⟨fun hc => ?_, fun c hc => ?_⟩ <;> simp [hc]

/-- C6 witness: a concrete item without context gets both sentinels, and the
generic conclusion also covers its (vacuous) non-null branch. -/
theorem normalize_context_sentinel_witness :
    (sampleItemNoContext.context = none →
      sampleOutNoContext.type = "null" ∧
      sampleOutNoContext.playlist_url = "null") ∧
    (∀ c, sampleItemNoContext.context = some c →
      sampleOutNoContext.type = c.type ∧
      sampleOutNoContext.playlist_url = c.external_urls_spotify) :=
  normalize_context_sentinel sampleItemNoContext sampleOutNoContext rfl

/-- C7: a non-200 authorization-code exchange response makes the interactive
login raise its fatal exception and leaves the credential store unchanged. -/
theorem new_login_nonsuccess_fatal (resp : TokenResponse) (cfg : Credentials)
    (now : String) (h : resp.status ≠ 200) :
    new_login_exchange resp cfg now =
      (.error "Failed to get access token.", cfg) := by
  simp [new_login_exchange, h]

/-- C7 witness: a concrete 500 response. -/
theorem new_login_nonsuccess_fatal_witness :
    new_login_exchange ⟨500, none, none⟩ sampleCreds "02/01/2024 00:00:00" =
      (.error "Failed to get access token.", sampleCreds) :=
  new_login_nonsuccess_fatal ⟨500, none, none⟩ sampleCreds
    "02/01/2024 00:00:00" (by decide)

/-- C9: a 200 refresh response without a refresh_token key makes
renew_access_token raise a missing-key error, while the interactive exchange
of _new_login accepts the same body, storing None for the refresh token and
returning the access token. -/
theorem renew_missing_refresh_key_raises (a now : String) (cfg : Credentials) :
    renew_access_token ⟨200, some a, none⟩ cfg now =
      .error "KeyError: refresh_token" ∧
    new_login_exchange ⟨200, some a, none⟩ cfg now =
      (.ok a, update_token cfg a none now) := by
  constructor <;> simp [renew_access_token, new_login_exchange]

/-- C10: normalization fails (unhandled IndexError) exactly when the album
has fewer than two images or no artist; when it succeeds it takes the image
URL at index 1 and the artist id and name at index 0. -/
theorem get_data_requires_indices (d : PlayItem) :
    (get_data d = none ↔
      d.track.album.images.length < 2 ∨ d.track.album.artists = []) ∧
    (∀ o img art, get_data d = some o →
      d.track.album.images[1]? = some img →
      d.track.album.artists[0]? = some art →
      o.image_album = img.url ∧ o.artist_album_id = art.id ∧
        o.artist_album_name = art.name) := by
  constructor
  · unfold get_data
    cases h1 : d.track.album.images[1]? with
    | none =>
      have hlen : d.track.album.images.length ≤ 1 := by
        by_contra hlt
        rw [List.getElem?_eq_getElem (by omega)] at h1
        exact Option.noConfusion h1
      cases h2 : d.track.album.artists[0]? <;> simp <;> omega
    | some img =>
      have hlen : 1 < d.track.album.images.length := by
        rcases List.getElem?_eq_some.mp h1 with ⟨hl, _⟩
        exact hl
      cases h2 : d.track.album.artists[0]? with
      | none =>
        have hnil : d.track.album.artists = [] := by
          have : d.track.album.artists.length ≤ 0 := by
            by_contra hlt
            rw [List.getElem?_eq_getElem (by omega)] at h2
            exact Option.noConfusion h2
          exact List.length_eq_zero.mp (by omega)
        simp [hnil]
      | some art =>
        have hne : d.track.album.artists ≠ [] := by
          rcases List.getElem?_eq_some.mp h2 with ⟨hl, _⟩
          intro hnil
          rw [hnil] at hl
          exact absurd hl (by simp)
        simp [hne]
        omega
  · intro o img art ho h1 h2
    unfold get_data at ho
    rw [h1, h2] at ho
    simp only [Option.some.injEq] at ho
    subst ho
    exact ⟨rfl, rfl, rfl⟩

/-- C10 witness: on an item whose album has three images and one artist,
normalization picks image index 1 and artist index 0. -/
theorem get_data_requires_indices_witness :
    sampleOutWithContext.image_album = (AlbumImage.mk "url1").url ∧
    sampleOutWithContext.artist_album_id = (AlbumArtist.mk "art1" "Artist").id ∧
    sampleOutWithContext.artist_album_name =
      (AlbumArtist.mk "art1" "Artist").name :=
  (get_data_requires_indices sampleItemWithContext).2 sampleOutWithContext
    ⟨"url1"⟩ ⟨"art1", "Artist"⟩ rfl rfl rfl

/-- The first cursor the driver loop requests is its starting cursor. -/
theorem runLoop_head (f : Nat → Nat) :
    ∀ fuel init c, (runLoop f fuel init).head? = some c → c = init := by
  intro fuel
  cases fuel with
  | zero => intro init c hc; simp [runLoop] at hc
  | succ n =>
    intro init c hc
    by_cases h : init = 0
    · simp [runLoop, h] at hc
    · rw [runLoop, if_neg h] at hc
      simp at hc
      omega

/-- Every cursor in the driver loop trace other than the first is the value
returned by the fetch of the previous one, and the trace stops before a
falsy cursor. -/
theorem runLoop_chain (f : Nat → Nat) :
    ∀ fuel init,
      List.Chain' (fun a b => b = f a) (runLoop f fuel init) ∧
      (∀ c ∈ runLoop f fuel init, c ≠ 0) := by
  intro fuel
  induction fuel with
  | zero => intro init; simp [runLoop]
  | succ n ih =>
    intro init
    by_cases h : init = 0
    · simp [runLoop, h]
    · rw [runLoop, if_neg h]
      refine ⟨List.chain'_cons'.mpr ⟨?_, (ih (f init)).1⟩, ?_⟩
      · intro y hy
        exact runLoop_head f n (f init) y hy
      · intro c hc
        rcases List.mem_cons.mp hc with rfl | hmem
        · exact h
        · exact (ih (f init)).2 c hmem

/-- C8: the driver loop's cursor trace (the successive arguments it passes to
get_tracks_history) starts at the initial epoch-millisecond timestamp, each
later cursor is exactly the value the previous page returned, and no request
is ever issued with the falsy terminal cursor — for any fetch behaviour and
any unrolling bound. -/
theorem main_loop_cursor_provenance (f : Nat → Nat) (fuel init : Nat) :
    (runLoop f fuel init ≠ [] → (runLoop f fuel init).headI = init) ∧
    List.Chain' (fun a b => b = f a) (runLoop f fuel init) ∧
    (∀ c ∈ runLoop f fuel init, c ≠ 0) := by
  obtain ⟨hchain, hmem⟩ := runLoop_chain f fuel init
  refine ⟨?_, hchain, hmem⟩
  intro hne
  cases htr : runLoop f fuel init with
  | nil => exact absurd htr hne
  | cons a t =>
    have ha : a = init := runLoop_head f fuel init a (by rw [htr]; rfl)
    exact ha

/-- C8 witness: a loop whose first fetch already returns the terminal signal
requests exactly its starting cursor. -/
theorem main_loop_cursor_provenance_witness :
    (runLoop (fun _ => 0) 2 1700000000000).headI = 1700000000000 :=
  (main_loop_cursor_provenance (fun _ => 0) 2 1700000000000).1 (by decide)
